import Mathlib

/-
  Verification development for the exchange-simulator trading core.

  Shallow embedding of:
    src/config/settings.py        (Settings: commission, slippage table, defaults)
    src/trading/models.py         (Balance, Position, Order and the enums)
    src/trading/balance_manager.py (BalanceManager)
    src/trading/order_engine.py   (OrderEngine)

  Conventions of the embedding:
  - Python floats are modelled as exact rationals.
  - Python dicts (insertion ordered) are modelled as association lists.
  - datetime fields and uuid order ids are modelled away: orders carry a
    Nat id handed out by a counter in the engine, and time fields are
    dropped (no claim mentions them).
  - The enum comparison idiom of the source, to wit comparisons of the
    string values such as order.side.value == order.position_side.value,
    is embedded faithfully as comparison of the value strings.
  - Python object aliasing in process_candle (the trigger list holds
    references to position objects that later executions mutate) is
    modelled by a ghost list ObjRef tracking, for each position present
    at scan time, the current quantity of that original object and
    whether the book entry at its key is still that object.
-/

namespace Exch

/-- OrderSide from models.py. -/
inductive OrderSide where
  | BUY
  | SELL
deriving DecidableEq, Repr

/-- The .value string of an OrderSide. -/
def OrderSide.val : OrderSide → String
  | OrderSide.BUY => "BUY"
  | OrderSide.SELL => "SELL"

/-- PositionSide from models.py. -/
inductive PositionSide where
  | LONG
  | SHORT
deriving DecidableEq, Repr

/-- The .value string of a PositionSide. -/
def PositionSide.val : PositionSide → String
  | PositionSide.LONG => "LONG"
  | PositionSide.SHORT => "SHORT"

/-- OrderType from models.py. -/
inductive OrderType where
  | MARKET
  | LIMIT
deriving DecidableEq, Repr

/-- OrderStatus from models.py. -/
inductive OrderStatus where
  | PENDING
  | FILLED
  | CANCELLED
  | PARTIALLY_FILLED
deriving DecidableEq, Repr

/-- Balance from models.py (asset, free, locked, total). -/
structure Balance where
  asset : String
  free : ℚ
  locked : ℚ
  total : ℚ
deriving DecidableEq, Repr

/-- Position from models.py. -/
structure Position where
  symbol : String
  side : PositionSide
  quantity : ℚ
  entry_price : ℚ
  current_price : ℚ
  unrealized_pnl : ℚ
  realized_pnl : ℚ
  leverage : ℚ
  margin : ℚ
  take_profit_price : Option ℚ
  stop_loss_price : Option ℚ
deriving DecidableEq, Repr

/-- Order from models.py; `leverage` is the attribute create_order attaches,
and `id` replaces the uuid string by a Nat handed out by the engine.
created_time and executed_time are dropped. -/
structure Order where
  id : Nat
  symbol : String
  side : OrderSide
  position_side : PositionSide
  order_type : OrderType
  quantity : ℚ
  price : ℚ
  executed_price : ℚ
  executed_quantity : ℚ
  status : OrderStatus
  take_profit_price : Option ℚ
  stop_loss_price : Option ℚ
  commission : ℚ
  leverage : ℚ
deriving DecidableEq, Repr

/- ---------------- Settings (src/config/settings.py) ---------------- -/

/-- Settings.DEFAULT_LEVERAGE. -/
def DEFAULT_LEVERAGE : ℚ := 10

/-- Settings.DEFAULT_BALANCE (USDT). -/
def DEFAULT_BALANCE : ℚ := 1000

/-- Settings.COMMISSION_RATE (0.07 percent). -/
def COMMISSION_RATE : ℚ := 7/10000

/-- Settings.MIN_COMMISSION (0.04 USDT). -/
def MIN_COMMISSION : ℚ := 1/25

/-- Settings.SLIPPAGE_CONFIG, already listed in the descending threshold
order produced by sorted(items, reverse=True) inside get_slippage. -/
def SLIPPAGE_CONFIG_DESC : List (ℚ × ℚ) :=
  [(10000, 1/500), (1000, 1/1000), (100, 1/2000), (0, 1/10000)]

/-- The scan loop of Settings.get_slippage: first threshold (descending)
with volume_usdt >= threshold wins; the fallback returns
SLIPPAGE_CONFIG[0], the percentage of the lowest threshold 0. -/
def get_slippage_go : List (ℚ × ℚ) → ℚ → ℚ
  | [], _ => 1/10000
  | (t, s) :: rest, v => if t ≤ v then s else get_slippage_go rest v

/-- Settings.get_slippage. -/
def get_slippage (volume_usdt : ℚ) : ℚ :=
  get_slippage_go SLIPPAGE_CONFIG_DESC volume_usdt

/-- Python `x or default` on an optional numeric argument: None and 0 both
fall back to the default. -/
def pyOrQ (x : Option ℚ) (d : ℚ) : ℚ :=
  match x with
  | none => d
  | some v => if v = 0 then d else v

/- ---------------- Association-list helpers for the position dict ------- -/

/-- Lookup in an insertion-ordered association list (Python dict read). -/
def alookup {α : Type} : List (String × α) → String → Option α
  | [], _ => none
  | kp :: rest, k => if kp.1 = k then some kp.2 else alookup rest k

/-- In-place value update at a key (mutating the dict entry). -/
def aupdate {α : Type} : List (String × α) → String → α → List (String × α)
  | [], _, _ => []
  | kp :: rest, k, v => if kp.1 = k then (k, v) :: aupdate rest k v else kp :: aupdate rest k v

/-- Deletion of a key (Python del). -/
def aerase {α : Type} : List (String × α) → String → List (String × α)
  | [], _ => []
  | kp :: rest, k => if kp.1 = k then aerase rest k else kp :: aerase rest k

/- ---------------- BalanceManager (src/trading/balance_manager.py) ------ -/

/-- The BalanceManager state: the USDT Balance (the only asset the code
ever creates or touches), the positions dict keyed by
symbol_positionside, and total_pnl. -/
structure BalanceManager where
  usdt : Balance
  positions : List (String × Position)
  total_pnl : ℚ
deriving DecidableEq, Repr

/-- BalanceManager.__init__: `initial_balance or settings.DEFAULT_BALANCE`,
one USDT Balance with free = total = that amount, empty positions. -/
def bmInit (initial_balance : Option ℚ) : BalanceManager :=
  let b := pyOrQ initial_balance DEFAULT_BALANCE
  { usdt := { asset := "USDT", free := b, locked := 0, total := b },
    positions := [], total_pnl := 0 }

/-- BalanceManager.calculate_commission: max(order_value * rate, min). -/
def calculate_commission (order_value : ℚ) : ℚ :=
  max (order_value * COMMISSION_RATE) MIN_COMMISSION

/-- BalanceManager.calculate_slippage: current_price times the tiered
percentage for the order value. -/
def calculate_slippage (order_value current_price : ℚ) : ℚ :=
  current_price * get_slippage order_value

/-- BalanceManager.can_place_order. The symbol and side parameters are
unused by the source body and elided here. The USDT balance always
exists (init creates it, nothing deletes it), so the no-USDT branch is
unreachable and elided. The formatted amounts inside the failure message
are elided: the message is its fixed prefix. -/
def can_place_order (bm : BalanceManager) (quantity price : ℚ)
    (leverage : Option ℚ) : Bool × String :=
  let lev := pyOrQ leverage DEFAULT_LEVERAGE
  let order_value := quantity * price
  let required_margin := order_value / lev
  let commission := calculate_commission order_value
  let total_required := required_margin + commission
  if bm.usdt.free < total_required then (false, "Insufficient balance")
  else (true, "")

/-- The position dict key f-string of execute_order:
symbol underscore position_side.value. -/
def orderKey (ord : Order) : String :=
  ord.symbol ++ "_" ++ ord.position_side.val

/-- BalanceManager.execute_order. Returns (success, new state, the order
with its fields updated on success). The try/except only fires on the
division by a zero leverage, which happens before any mutation, so that
case returns False with the state unchanged. The write
position.realized_pnl += realized_pnl lands on the object that is
deleted from the dict in the same branch, so only total_pnl keeps it. -/
def execute_order (bm : BalanceManager) (ord : Order)
    (executed_price executed_quantity : ℚ) : Bool × BalanceManager × Order :=
  let order_value := executed_quantity * executed_price
  let commission := calculate_commission order_value
  if ord.leverage = 0 then (false, bm, ord)
  else
    let required_margin := order_value / ord.leverage
    let free1 := bm.usdt.free - (required_margin + commission)
    let usdt1 : Balance := { bm.usdt with free := free1, total := free1 + bm.usdt.locked }
    let key := orderKey ord
    let ordF : Order :=
      { ord with
        executed_price := executed_price,
        executed_quantity := executed_quantity,
        commission := commission,
        status := OrderStatus.FILLED }
    match alookup bm.positions key with
    | some position =>
      if ord.side.val = ord.position_side.val then
        -- source comment: Adding to position
        let total_quantity := position.quantity + executed_quantity
        let total_value := position.quantity * position.entry_price
            + executed_quantity * executed_price
        let position1 :=
          { position with
            entry_price := total_value / total_quantity,
            quantity := total_quantity }
        (true,
         { bm with
           usdt := usdt1,
           positions := aupdate bm.positions key position1 },
         ordF)
      else
        -- source comment: Reducing position
        let q1 := position.quantity - executed_quantity
        if q1 ≤ 0 then
          let pnl0 := (executed_price - position.entry_price) * executed_quantity
          let realized := if ord.position_side = PositionSide.SHORT then -pnl0 else pnl0
          let free2 := free1 + position.margin
          let usdt2 : Balance := { usdt1 with free := free2, total := free2 + usdt1.locked }
          (true,
           { bm with
             usdt := usdt2,
             positions := aerase bm.positions key,
             total_pnl := bm.total_pnl + realized },
           ordF)
        else
          (true,
           { bm with
             usdt := usdt1,
             positions := aupdate bm.positions key { position with quantity := q1 } },
           ordF)
    | none =>
      -- source comment: Create new position
      let position : Position :=
        { symbol := ord.symbol, side := ord.position_side, quantity := executed_quantity,
          entry_price := executed_price, current_price := executed_price,
          unrealized_pnl := 0, realized_pnl := 0, leverage := DEFAULT_LEVERAGE,
          margin := required_margin,
          take_profit_price := ord.take_profit_price,
          stop_loss_price := ord.stop_loss_price }
      (true,
       { bm with
         usdt := usdt1,
         positions := bm.positions ++ [(key, position)] },
       ordF)

/-- BalanceManager.get_position: bare-symbol lookup in the positions dict. -/
def get_position (bm : BalanceManager) (symbol : String) : Option Position :=
  alookup bm.positions symbol

/-- The per-position body of BalanceManager.update_position_prices. -/
def markPosition (p : Position) (symbol : String) (current_price : ℚ) : Position :=
  if p.symbol = symbol then
    { p with
      current_price := current_price,
      unrealized_pnl :=
        if p.side = PositionSide.LONG then (current_price - p.entry_price) * p.quantity
        else (p.entry_price - current_price) * p.quantity }
  else p

/-- The iteration of update_position_prices over the positions dict. -/
def markAll (symbol : String) (current_price : ℚ) :
    List (String × Position) → List (String × Position)
  | [] => []
  | kp :: rest => (kp.1, markPosition kp.2 symbol current_price) :: markAll symbol current_price rest

/-- BalanceManager.update_position_prices. -/
def update_position_prices (bm : BalanceManager) (symbol : String)
    (current_price : ℚ) : BalanceManager :=
  { bm with positions := markAll symbol current_price bm.positions }

/- ---------------- OrderEngine (src/trading/order_engine.py) ------------ -/

/-- The OrderEngine state: balance manager, open orders dict (as a list in
insertion order, ids unique), history list, and the id counter standing
in for uuid generation. -/
structure OrderEngine where
  bm : BalanceManager
  orders : List Order
  order_history : List Order
  next_id : Nat
deriving DecidableEq, Repr

/-- A fresh engine over a fresh BalanceManager. -/
def engInit (initial_balance : Option ℚ) : OrderEngine :=
  { bm := bmInit initial_balance, orders := [], order_history := [], next_id := 0 }

/-- OrderEngine.create_order. Returns ((success, message, order?), new
engine state). Every failure path returns before the order is stored, so
the engine is unchanged there. -/
def create_order (eng : OrderEngine) (symbol side : String) (quantity : ℚ)
    (order_type : String) (price : ℚ) (take_profit stop_loss : Option ℚ)
    (leverage : Option ℚ) : (Bool × String × Option Order) × OrderEngine :=
  if ¬(side = "BUY" ∨ side = "SELL") then ((false, "Invalid side", none), eng)
  else if ¬(order_type = "MARKET" ∨ order_type = "LIMIT") then
    ((false, "Invalid order type", none), eng)
  else if quantity ≤ 0 then ((false, "Invalid quantity", none), eng)
  else
    let position_side := if side = "BUY" then PositionSide.LONG else PositionSide.SHORT
    let lev := pyOrQ leverage DEFAULT_LEVERAGE
    -- source: for MARKET orders execution_price is 0.0 here
    -- (comment in source: This will be set during execution)
    let execution_price := if order_type = "MARKET" then 0 else price
    let ord : Order :=
      { id := eng.next_id, symbol := symbol,
        side := if side = "BUY" then OrderSide.BUY else OrderSide.SELL,
        position_side := position_side,
        order_type := if order_type = "MARKET" then OrderType.MARKET else OrderType.LIMIT,
        quantity := quantity, price := price, executed_price := 0, executed_quantity := 0,
        status := OrderStatus.PENDING, take_profit_price := take_profit,
        stop_loss_price := stop_loss, commission := 0, leverage := lev }
    let chk := can_place_order eng.bm quantity execution_price (some lev)
    if chk.1 = false then ((false, chk.2, none), eng)
    else ((true, "Order created successfully", some ord),
          { eng with orders := eng.orders ++ [ord], next_id := eng.next_id + 1 })

/-- del self.orders[order.id] (ids are unique). -/
def removeOrder : List Order → Nat → List Order
  | [], _ => []
  | o :: rest, i => if o.id = i then removeOrder rest i else o :: removeOrder rest i

/-- OrderEngine.execute_market_order: slippage-adjusted execution price
from the current price, then BalanceManager.execute_order; on success the
order moves from the open dict to the history. -/
def execute_market_order (eng : OrderEngine) (ord : Order)
    (current_price high low : ℚ) : Bool × OrderEngine × Order :=
  let order_value := ord.quantity * current_price
  let slip := calculate_slippage order_value current_price
  let execution_price :=
    if ord.side = OrderSide.BUY then current_price + slip else current_price - slip
  let r := execute_order eng.bm ord execution_price ord.quantity
  if r.1 then
    (true,
     { eng with
       bm := r.2.1,
       order_history := eng.order_history ++ [r.2.2],
       orders := removeOrder eng.orders ord.id },
     r.2.2)
  else (false, { eng with bm := r.2.1 }, r.2.2)

/-- Truthiness of the take-profit check of _check_tp_sl_improved:
Python `if position.take_profit_price:` is false for None and for 0. -/
def tpFire (p : Position) (high low : ℚ) : Bool :=
  match p.take_profit_price with
  | none => false
  | some tp =>
    if tp = 0 then false
    else if p.side = PositionSide.LONG then decide (tp ≤ high)
    else decide (low ≤ tp)

/-- The stop-loss check of _check_tp_sl_improved. -/
def slFire (p : Position) (high low : ℚ) : Bool :=
  match p.stop_loss_price with
  | none => false
  | some sl =>
    if sl = 0 then false
    else if p.side = PositionSide.LONG then decide (low ≤ sl)
    else decide (sl ≤ high)

/-- The rows one position contributes to the trigger list (the TP append
followed by the SL append of the loop body of _check_tp_sl_improved). -/
def triggerRows (key : String) (p : Position) (symbol : String) (high low : ℚ)
    (acc : List (String × PositionSide × String × ℚ)) :
    List (String × PositionSide × String × ℚ) :=
  if p.symbol ≠ symbol then acc
  else
    let acc1 :=
      match p.take_profit_price with
      | some tp => if tpFire p high low then acc ++ [(key, p.side, "TP", tp)] else acc
      | none => acc
    match p.stop_loss_price with
    | some sl => if slFire p high low then acc1 ++ [(key, p.side, "SL", sl)] else acc1
    | none => acc1

/-- The accumulating loop of _check_tp_sl_improved. -/
def check_tp_sl_go (symbol : String) (high low : ℚ) :
    List (String × Position) → List (String × PositionSide × String × ℚ) →
    List (String × PositionSide × String × ℚ)
  | [], acc => acc
  | kp :: rest, acc => check_tp_sl_go symbol high low rest (triggerRows kp.1 kp.2 symbol high low acc)

/-- OrderEngine._check_tp_sl_improved. The returned tuples carry the dict
key and the side of the referenced position object in place of the
object reference; each position can contribute a TP row and an SL row. -/
def check_tp_sl_improved (positions : List (String × Position)) (symbol : String)
    (high low : ℚ) : List (String × PositionSide × String × ℚ) :=
  check_tp_sl_go symbol high low positions []

/-- Ghost record for one position object referenced by the trigger list:
its dict key, the current quantity of the object, and whether the book
entry at that key is still this very object. -/
structure ObjRef where
  key : String
  qty : ℚ
  inBook : Bool
deriving DecidableEq, Repr

/-- Quantity of the referenced object (position.quantity read in the
process_candle loop). -/
def refQty : List ObjRef → String → ℚ
  | [], _ => 0
  | o :: rest, k => if o.key = k then o.qty else refQty rest k

/-- Ghost update: the book object at key K had its quantity shifted by d. -/
def ghostShift (K : String) (d : ℚ) : List ObjRef → List ObjRef
  | [] => []
  | o :: rest =>
    (if o.key = K ∧ o.inBook then { o with qty := o.qty + d } else o) :: ghostShift K d rest

/-- Ghost update: a fresh object now occupies key K, so a ghost entry at
that key no longer is the book object. -/
def ghostInvalidate (K : String) : List ObjRef → List ObjRef
  | [] => []
  | o :: rest => (if o.key = K then { o with inBook := false } else o) :: ghostInvalidate K rest

/-- Mirror of the object mutation done by a successful execute_order on
the ghost list: if the fill key was in the book, the book object there
was mutated (quantity increased on the adding branch, decreased on the
reducing branch) and the ghost entry is updated when it still is that
object; if the key was absent, a fresh object now occupies the key. -/
def ghostAfterFill (ghost : List ObjRef) (bmPre : BalanceManager) (ord : Order) :
    List ObjRef :=
  let K := orderKey ord
  match alookup bmPre.positions K with
  | some _ =>
    if ord.side.val = ord.position_side.val then ghostShift K ord.quantity ghost
    else ghostShift K (-ord.quantity) ghost
  | none => ghostInvalidate K ghost

/-- One iteration of the TP/SL loop of OrderEngine.process_candle:
synthesize the closing MARKET order for the triggered position (opposite
side, quantity read from the referenced object) and execute it at the
trigger price. -/
def processTrigger (symbol : String) (high low : ℚ)
    (st : OrderEngine × List ObjRef) (t : String × PositionSide × String × ℚ) :
    OrderEngine × List ObjRef :=
  let eng := st.1
  let ghost := st.2
  let key := t.1
  let side := t.2.1
  let trig := t.2.2.2
  let closing_side := if side = PositionSide.LONG then "SELL" else "BUY"
  let qty := refQty ghost key
  let c := create_order eng symbol closing_side qty "MARKET" 0 none none none
  match c.1.2.2 with
  | none => (c.2, ghost)
  | some ord =>
    let bmPre := c.2.bm
    let r := execute_market_order c.2 ord trig high low
    if r.1 then (r.2.1, ghostAfterFill ghost bmPre ord)
    else (r.2.1, ghost)

/-- The iteration over the trigger rows in process_candle. -/
def runTriggers (symbol : String) (high low : ℚ) :
    List (String × PositionSide × String × ℚ) → OrderEngine × List ObjRef →
    OrderEngine × List ObjRef
  | [], st => st
  | t :: rest, st => runTriggers symbol high low rest (processTrigger symbol high low st t)

/-- The pending-market-orders snapshot of process_candle. -/
def pendingMarket : List Order → String → List Order
  | [], _ => []
  | o :: rest, s =>
    if o.symbol = s ∧ o.order_type = OrderType.MARKET then o :: pendingMarket rest s
    else pendingMarket rest s

/-- The loop executing the pending MARKET orders of process_candle at the
close price. -/
def runPendingOrders (close high low : ℚ) : List Order → OrderEngine → OrderEngine
  | [], eng => eng
  | o :: rest, eng => runPendingOrders close high low rest (execute_market_order eng o close high low).2.1

/-- The ghost snapshot of the position objects present at scan time. -/
def ghostInit : List (String × Position) → List ObjRef
  | [] => []
  | kp :: rest => ObjRef.mk kp.1 kp.2.quantity true :: ghostInit rest

/-- OrderEngine.process_candle: mark positions at close, run the TP/SL
scan and execute a closing order per trigger row at its trigger price,
then execute the still-pending MARKET orders of the symbol at close.
open_price and volume are unused by the source body. -/
def process_candle (eng : OrderEngine) (symbol : String)
    (open_price high low close volume : ℚ) : OrderEngine :=
  let bm1 := update_position_prices eng.bm symbol close
  let eng1 : OrderEngine := { eng with bm := bm1 }
  let triggers := check_tp_sl_improved bm1.positions symbol high low
  let st := runTriggers symbol high low triggers (eng1, ghostInit bm1.positions)
  let pend := pendingMarket st.1.orders symbol
  runPendingOrders close high low pend st.1

/- ---------------- Named states and inputs used by the theorems --------- -/

/-- The Balance Ledger invariant of the spec: total = free + locked. -/
def BalInv (b : Balance) : Prop := b.total = b.free + b.locked

/-- A LONG position of 100 units opened at 1.00 with margin 10 (scenario 1
of the spec), with both a take profit at 1.05 and a stop loss at 0.95. -/
def posBoth : Position :=
  { symbol := "BTCUSDT", side := PositionSide.LONG, quantity := 100, entry_price := 1,
    current_price := 1, unrealized_pnl := 0, realized_pnl := 0, leverage := 10,
    margin := 10, take_profit_price := some (21/20), stop_loss_price := some (19/20) }

/-- The same position with only the take profit configured. -/
def posTPOnly : Position :=
  { posBoth with stop_loss_price := none }

/-- The same position with neither trigger configured. -/
def posPlain : Position :=
  { posBoth with take_profit_price := none, stop_loss_price := none }

/-- An engine holding free balance f and the double-trigger position. -/
def engBoth (f : ℚ) : OrderEngine :=
  { bm := { usdt := { asset := "USDT", free := f, locked := 0, total := f },
            positions := [("BTCUSDT_LONG", posBoth)], total_pnl := 0 },
    orders := [], order_history := [], next_id := 0 }

/-- An engine holding free balance f and the take-profit-only position. -/
def engTPOnly (f : ℚ) : OrderEngine :=
  { bm := { usdt := { asset := "USDT", free := f, locked := 0, total := f },
            positions := [("BTCUSDT_LONG", posTPOnly)], total_pnl := 0 },
    orders := [], order_history := [], next_id := 0 }

/-- The ledger state of scenario 2 of the spec: free 989.93 after opening
the LONG, the position held at its dict key. -/
def bmScenario2 : BalanceManager :=
  { usdt := { asset := "USDT", free := 98993/100, locked := 0, total := 98993/100 },
    positions := [("BTCUSDT_LONG", posPlain)], total_pnl := 0 }

/-- A closing SELL order against the LONG slot (position_side LONG), the
shape that reaches the reducing branch of execute_order on the key
BTCUSDT_LONG. -/
def ordCloseLong : Order :=
  { id := 0, symbol := "BTCUSDT", side := OrderSide.SELL, position_side := PositionSide.LONG,
    order_type := OrderType.MARKET, quantity := 100, price := 0, executed_price := 0,
    executed_quantity := 0, status := OrderStatus.PENDING, take_profit_price := none,
    stop_loss_price := none, commission := 0, leverage := 10 }

/-- An opening BUY order for the LONG slot, as create_order builds it. -/
def ordBuyLong : Order :=
  { ordCloseLong with side := OrderSide.BUY }

/- ===================== Helper lemmas ===================== -/

theorem side_val_ne (s : OrderSide) (ps : PositionSide) : s.val ≠ ps.val := by
  cases s <;> cases ps <;> decide

theorem alookup_append_of_none {α : Type} {l1 : List (String × α)} (l2 : List (String × α))
    (k : String) (h : alookup l1 k = none) : alookup (l1 ++ l2) k = alookup l2 k := by
  induction l1 with
  | nil => simp
  | cons kp rest ih =>
    by_cases hk : kp.1 = k
    · simp [alookup, hk] at h
    · simp only [List.cons_append, alookup, if_neg hk] at h ⊢
      exact ih h

theorem alookup_aerase_self {α : Type} (l : List (String × α)) (k : String) :
    alookup (aerase l k) k = none := by
  induction l with
  | nil => rfl
  | cons kp rest ih =>
    by_cases hk : kp.1 = k
    · simpa [aerase, hk] using ih
    · simpa [aerase, alookup, hk] using ih

theorem alookup_aupdate_self {α : Type} (l : List (String × α)) (k : String) (v w : α)
    (h : alookup l k = some w) : alookup (aupdate l k v) k = some v := by
  induction l with
  | nil => simp [alookup] at h
  | cons kp rest ih =>
    by_cases hk : kp.1 = k
    · simp [aupdate, hk, alookup]
    · simp only [alookup, if_neg hk] at h
      simpa [aupdate, alookup, hk] using ih h

theorem mem_aerase {α : Type} {l : List (String × α)} {k : String} {kp : String × α}
    (h : kp ∈ aerase l k) : kp ∈ l := by
  induction l with
  | nil => simp [aerase] at h
  | cons hd rest ih =>
    by_cases hk : hd.1 = k
    · simp only [aerase, if_pos hk] at h
      exact List.mem_cons_of_mem _ (ih h)
    · simp only [aerase, if_neg hk, List.mem_cons] at h
      rcases h with h | h
      · exact h ▸ List.mem_cons_self _ _
      · exact List.mem_cons_of_mem _ (ih h)

theorem mem_aupdate {α : Type} {l : List (String × α)} {k : String} {v : α} {kp : String × α}
    (h : kp ∈ aupdate l k v) : kp = (k, v) ∨ kp ∈ l := by
  induction l with
  | nil => simp [aupdate] at h
  | cons hd rest ih =>
    by_cases hk : hd.1 = k
    · simp only [aupdate, if_pos hk, List.mem_cons] at h
      rcases h with h | h
      · exact Or.inl h
      · rcases ih h with h | h
        · exact Or.inl h
        · exact Or.inr (List.mem_cons_of_mem _ h)
    · simp only [aupdate, if_neg hk, List.mem_cons] at h
      rcases h with h | h
      · exact Or.inr (h ▸ List.mem_cons_self _ _)
      · rcases ih h with h | h
        · exact Or.inl h
        · exact Or.inr (List.mem_cons_of_mem _ h)

theorem posSide_val_length_pos (ps : PositionSide) : 0 < ps.val.length := by
  cases ps <;> decide

theorem orderKey_ne_symbol (ord : Order) : orderKey ord ≠ ord.symbol := by
  intro h
  have hlen := congrArg String.length h
  simp only [orderKey, String.length_append] at hlen
  have hv := posSide_val_length_pos ord.position_side
  have hu : String.length "_" = 1 := rfl
  omega

theorem keyBTC_LONG : ("BTCUSDT" ++ "_" ++ "LONG" : String) = "BTCUSDT_LONG" := rfl

theorem keyBTC_SHORT : ("BTCUSDT" ++ "_" ++ "SHORT" : String) = "BTCUSDT_SHORT" := rfl

theorem sell_ne_long : ("SELL" : String) ≠ "LONG" := by decide

theorem buy_ne_long : ("BUY" : String) ≠ "LONG" := by decide

theorem sell_ne_short : ("SELL" : String) ≠ "SHORT" := by decide

theorem buy_ne_short : ("BUY" : String) ≠ "SHORT" := by decide

theorem long_ne_short : PositionSide.LONG ≠ PositionSide.SHORT := by decide

theorem short_ne_long : PositionSide.SHORT ≠ PositionSide.LONG := by decide

theorem sell_ne_buy : ("SELL" : String) ≠ "BUY" := by decide

theorem buy_ne_sell : ("BUY" : String) ≠ "SELL" := by decide

theorem keyL_ne_keyS : ("BTCUSDT_LONG" : String) ≠ "BTCUSDT_SHORT" := by decide

theorem keyS_ne_keyL : ("BTCUSDT_SHORT" : String) ≠ "BTCUSDT_LONG" := by decide

theorem oSELL_ne_oBUY : OrderSide.SELL ≠ OrderSide.BUY := by decide

theorem oBUY_ne_oSELL : OrderSide.BUY ≠ OrderSide.SELL := by decide

theorem can_place_order_cases (bm : BalanceManager) (q pr : ℚ) (lv : Option ℚ) :
    can_place_order bm q pr lv = (false, "Insufficient balance") ∨
    can_place_order bm q pr lv = (true, "") := by
  unfold can_place_order
  by_cases h : bm.usdt.free < q * pr / pyOrQ lv DEFAULT_LEVERAGE + calculate_commission (q * pr)
  · exact Or.inl (by simp [h])
  · exact Or.inr (by simp [h])

/- ===================== C8 ===================== -/

/-- C8: the slippage price delta is the market price times the percentage
of the highest configured volume threshold at or below the order value
(0 maps to 0.01 percent, 100 to 0.05 percent, 1000 to 0.1 percent,
10000 to 0.2 percent), with the lowest-threshold percentage used below
all thresholds; in particular an order value of 5000 USDT selects the
1000 tier percentage 0.1 percent, not the 10000 tier. -/
theorem slippage_tier_selection :
    (∀ v p : ℚ, calculate_slippage v p =
      p * (if 10000 ≤ v then 1/500 else if 1000 ≤ v then 1/1000
           else if 100 ≤ v then 1/2000 else 1/10000)) ∧
    (∀ p : ℚ, calculate_slippage 5000 p = p * (1/1000)) := by
  constructor
  · intro v p
    simp only [calculate_slippage, get_slippage, SLIPPAGE_CONFIG_DESC, get_slippage_go]
    by_cases h1 : (10000 : ℚ) ≤ v
    · simp [h1]
    · by_cases h2 : (1000 : ℚ) ≤ v
      · simp [h1, h2]
      · by_cases h3 : (100 : ℚ) ≤ v
        · simp [h1, h2, h3]
        · by_cases h4 : (0 : ℚ) ≤ v <;> simp [h1, h2, h3, h4]
  · intro p
    norm_num [calculate_slippage, get_slippage, SLIPPAGE_CONFIG_DESC, get_slippage_go]

/- ===================== C5 ===================== -/

/-- C5: the USDT Balance satisfies total = free + locked after
initialization and after every execute_order call, the only ledger
mutations (opening, adding and full-close release paths included). -/
theorem balance_total_invariant :
    (∀ ib, BalInv (bmInit ib).usdt) ∧
    (∀ bm ord p q, BalInv bm.usdt → BalInv (execute_order bm ord p q).2.1.usdt) := by
  refine ⟨fun ib => by simp [bmInit, BalInv], ?_⟩
  intro bm ord p q h
  by_cases hl : ord.leverage = 0
  · simpa [execute_order, hl] using h
  · rcases hA : alookup bm.positions (orderKey ord) with _ | position
    · simp [execute_order, hl, hA, BalInv]
    · by_cases hs : ord.side.val = ord.position_side.val
      · simp [execute_order, hl, hA, hs, BalInv]
      · by_cases hq0 : position.quantity - q ≤ 0
        · simp [execute_order, hl, hA, hs, hq0, BalInv]
        · simp [execute_order, hl, hA, hs, hq0, BalInv]

/-- C5 witness: the invariant carried through the concrete full close of
scenario 2. -/
theorem balance_total_invariant_witness :
    BalInv (execute_order bmScenario2 ordCloseLong (105/100) 100).2.1.usdt :=
  balance_total_invariant.2 bmScenario2 ordCloseLong (105/100) 100
    (by simp [BalInv, bmScenario2])

/- ===================== C9 ===================== -/

/-- C9: every create_order request that fails validation (bad side, bad
type, non-positive quantity) or fails the balance check returns a typed
failure reason, records no order, and leaves the whole engine state
(open-orders map, balances, positions) unchanged. -/
theorem create_failure_no_mutation
    (eng : OrderEngine) (symbol side : String) (quantity : ℚ) (order_type : String)
    (price : ℚ) (tp sl lev : Option ℚ)
    (h : (create_order eng symbol side quantity order_type price tp sl lev).1.1 = false) :
    (create_order eng symbol side quantity order_type price tp sl lev).2 = eng ∧
    (create_order eng symbol side quantity order_type price tp sl lev).1.2.2 = none ∧
    ((create_order eng symbol side quantity order_type price tp sl lev).1.2.1 = "Invalid side" ∨
     (create_order eng symbol side quantity order_type price tp sl lev).1.2.1 = "Invalid order type" ∨
     (create_order eng symbol side quantity order_type price tp sl lev).1.2.1 = "Invalid quantity" ∨
     (create_order eng symbol side quantity order_type price tp sl lev).1.2.1 =
       "Insufficient balance") := by
  by_cases h1 : ¬(side = "BUY" ∨ side = "SELL")
  · simp [create_order, h1]
  · by_cases h2 : ¬(order_type = "MARKET" ∨ order_type = "LIMIT")
    · simp [create_order, h1, h2]
    · by_cases h3 : quantity ≤ 0
      · simp [create_order, h1, h2, h3]
      · rcases can_place_order_cases eng.bm quantity
            (if order_type = "MARKET" then 0 else price)
            (some (pyOrQ lev DEFAULT_LEVERAGE)) with hc | hc
        · simp [create_order, h1, h2, h3, hc]
        · simp [create_order, h1, h2, h3, hc] at h

/-- C9 witness: a rejected side mutates nothing. -/
theorem create_failure_no_mutation_witness :
    (create_order (engInit none) "BTCUSDT" "HOLD" 1 "MARKET" 0 none none none).2
      = engInit none ∧
    (create_order (engInit none) "BTCUSDT" "HOLD" 1 "MARKET" 0 none none none).1.2.2 = none ∧
    ((create_order (engInit none) "BTCUSDT" "HOLD" 1 "MARKET" 0 none none none).1.2.1
        = "Invalid side" ∨
     (create_order (engInit none) "BTCUSDT" "HOLD" 1 "MARKET" 0 none none none).1.2.1
        = "Invalid order type" ∨
     (create_order (engInit none) "BTCUSDT" "HOLD" 1 "MARKET" 0 none none none).1.2.1
        = "Invalid quantity" ∨
     (create_order (engInit none) "BTCUSDT" "HOLD" 1 "MARKET" 0 none none none).1.2.1
        = "Insufficient balance") :=
  create_failure_no_mutation (engInit none) "BTCUSDT" "HOLD" 1 "MARKET" 0 none none none
    (by decide)

/- ===================== C10 ===================== -/

/-- C10: a position opened through order execution is stored under the
compound key symbol underscore direction, so get_position on the bare
symbol returns none even though the position is in the book. -/
theorem get_position_misses_executed_open
    (bm : BalanceManager) (ord : Order) (p q : ℚ)
    (hlev : ord.leverage ≠ 0)
    (hkey : alookup bm.positions (orderKey ord) = none)
    (hsym : alookup bm.positions ord.symbol = none) :
    (execute_order bm ord p q).1 = true ∧
    (alookup (execute_order bm ord p q).2.1.positions (orderKey ord)).isSome = true ∧
    get_position (execute_order bm ord p q).2.1 ord.symbol = none := by
  simp only [execute_order, if_neg hlev, hkey]
  refine ⟨trivial, ?_, ?_⟩
  · rw [alookup_append_of_none _ _ hkey]
    simp [alookup]
  · rw [get_position]
    rw [alookup_append_of_none _ _ hsym]
    simp [alookup, orderKey_ne_symbol ord]

/-- C10 witness: opening a LONG on a fresh ledger leaves get_position
blind to it. -/
theorem get_position_misses_executed_open_witness :
    (execute_order (bmInit (some 1000)) ordBuyLong 1 100).1 = true ∧
    (alookup (execute_order (bmInit (some 1000)) ordBuyLong 1 100).2.1.positions
       (orderKey ordBuyLong)).isSome = true ∧
    get_position (execute_order (bmInit (some 1000)) ordBuyLong 1 100).2.1
       ordBuyLong.symbol = none :=
  get_position_misses_executed_open (bmInit (some 1000)) ordBuyLong 1 100
    (by decide) (by decide) (by decide)

/- ===================== C1 ===================== -/

/-- Evaluation of can_place_order at price 0, the price create_order
passes for MARKET orders: the notional is 0, the required margin is 0,
and the commission floor alone is required. -/
theorem can_place_order_market (bm : BalanceManager) (q : ℚ) (lv : Option ℚ) :
    can_place_order bm q 0 lv =
      (if bm.usdt.free < MIN_COMMISSION then (false, "Insufficient balance")
       else (true, "")) := by
  unfold can_place_order calculate_commission
  norm_num [max_def, MIN_COMMISSION, COMMISSION_RATE]

/-- C1 counterexample: with the default 1000 USDT free, a MARKET order for
1000000 units at market price 1 with leverage 10 requires
100000 + commission(1000000) under the claimed check, far above the free
balance, yet create_order accepts it and records the order: the
pre-trade balance check of a market order is not computed against the
notional at the market price. -/
theorem market_balance_check_cex :
    (engInit none).bm.usdt.free <
      1000000 * 1 / 10 + calculate_commission (1000000 * 1) ∧
    (create_order (engInit none) "BTCUSDT" "BUY" 1000000 "MARKET" 0
       none none none).1.1 = true ∧
    (create_order (engInit none) "BTCUSDT" "BUY" 1000000 "MARKET" 0
       none none none).2.orders.length = 1 := by
  refine ⟨?_, ?_, ?_⟩ <;>
    norm_num [create_order, can_place_order, engInit, bmInit, pyOrQ, calculate_commission,
      DEFAULT_BALANCE, DEFAULT_LEVERAGE, COMMISSION_RATE, MIN_COMMISSION, max_def]

/-- C1 amended: for a MARKET order create_order runs the balance check at
price 0, so the required total collapses to the commission floor
MIN_COMMISSION = 0.04 USDT: creation succeeds exactly when the free USDT
balance is at least 0.04, independently of quantity, market price and
leverage, and a failed check leaves the engine unchanged. -/
theorem market_balance_check_amended
    (eng : OrderEngine) (symbol side : String) (q price : ℚ) (tp sl lev : Option ℚ)
    (hside : side = "BUY" ∨ side = "SELL") (hq : 0 < q) :
    ((create_order eng symbol side q "MARKET" price tp sl lev).1.1 = true ↔
      MIN_COMMISSION ≤ eng.bm.usdt.free) ∧
    ((create_order eng symbol side q "MARKET" price tp sl lev).1.1 = false →
      (create_order eng symbol side q "MARKET" price tp sl lev).2 = eng) := by
  have h1 : ¬¬(side = "BUY" ∨ side = "SELL") := not_not_intro hside
  have h3 : ¬(q ≤ 0) := not_le.mpr hq
  by_cases hfree : eng.bm.usdt.free < MIN_COMMISSION
  · have hnle : ¬(MIN_COMMISSION ≤ eng.bm.usdt.free) := not_le.mpr hfree
    simp [create_order, h1, h3, can_place_order_market, hfree, hnle]
  · have hle : MIN_COMMISSION ≤ eng.bm.usdt.free := not_lt.mp hfree
    simp [create_order, h1, h3, can_place_order_market, hfree, hle]

/-- C1 amended witness: on a fresh engine the market order of the
counterexample is accepted, 0.04 being at most 1000. -/
theorem market_balance_check_amended_witness :
    ((create_order (engInit none) "BTC" "BUY" 5 "MARKET" 0 none none none).1.1 = true ↔
      MIN_COMMISSION ≤ (engInit none).bm.usdt.free) ∧
    ((create_order (engInit none) "BTC" "BUY" 5 "MARKET" 0 none none none).1.1 = false →
      (create_order (engInit none) "BTC" "BUY" 5 "MARKET" 0 none none none).2
        = engInit none) :=
  market_balance_check_amended (engInit none) "BTC" "BUY" 5 0 none none none
    (Or.inl rfl) (by norm_num)

/- ===================== C2 ===================== -/

/-- C2 (code bug): executing the full close of scenario 2 of the spec
(LONG 100 opened at 1.00 with stored margin 10, free 989.93) at price
1.05 removes the position and books realized PnL 5 into total_pnl, but
the free balance becomes 989.3565, not the claimed
989.93 + 10 + 5 - commission = 1004.8565: execute_order deducts the
closing fill margin requirement 10.5 plus commission 0.0735 as if it
were an opening fill, returns only the stored margin 10, and never
credits the realized PnL to the balance. -/
theorem full_close_balance_divergence :
    (execute_order bmScenario2 ordCloseLong (105/100) 100).1 = true ∧
    alookup (execute_order bmScenario2 ordCloseLong (105/100) 100).2.1.positions
      "BTCUSDT_LONG" = none ∧
    (execute_order bmScenario2 ordCloseLong (105/100) 100).2.1.total_pnl = 5 ∧
    (execute_order bmScenario2 ordCloseLong (105/100) 100).2.1.usdt.free
      = 9893565/10000 ∧
    (9893565/10000 : ℚ) ≠
      98993/100 + 10 + 5 - calculate_commission (100 * (105/100)) := by
  refine ⟨?_, ?_, ?_, ?_, ?_⟩ <;>
    norm_num [execute_order, bmScenario2, ordCloseLong, posPlain, posBoth, orderKey,
      calculate_commission, alookup, aerase, aupdate, OrderSide.val, PositionSide.val,
      COMMISSION_RATE, MIN_COMMISSION, max_def, keyBTC_LONG, keyBTC_SHORT,
      sell_ne_long, buy_ne_long, sell_ne_short, buy_ne_short, long_ne_short, short_ne_long]

/- ===================== C7 ===================== -/

/-- C7 (code bug): the weighted-average branch of execute_order is dead,
because it compares side.value (BUY or SELL) with position_side.value
(LONG or SHORT), which never coincide; a second same-direction opening
fill is treated as a reduction instead. After BUY LONG fills of 100 at
price 1 and then 50 at price 2, the book holds quantity 50 at entry
price 1, not the claimed quantity 150 at entry price
(1*100 + 2*50)/150 = 4/3. -/
theorem weighted_average_divergence :
    (∀ o : Order, o.side.val ≠ o.position_side.val) ∧
    ((alookup (execute_order (execute_order (bmInit (some 1000)) ordBuyLong 1 100).2.1
        ordBuyLong 2 50).2.1.positions "BTCUSDT_LONG").map Position.quantity
      = some 50 ∧
     (alookup (execute_order (execute_order (bmInit (some 1000)) ordBuyLong 1 100).2.1
        ordBuyLong 2 50).2.1.positions "BTCUSDT_LONG").map Position.entry_price
      = some 1) ∧
    ((50 : ℚ) ≠ 100 + 50 ∧ (1 : ℚ) ≠ (1 * 100 + 2 * 50) / (100 + 50)) := by
  refine ⟨fun o => side_val_ne o.side o.position_side, ?_, ?_⟩ <;>
    norm_num [execute_order, bmInit, pyOrQ, ordBuyLong, ordCloseLong, orderKey,
      calculate_commission, alookup, aerase, aupdate, OrderSide.val, PositionSide.val,
      COMMISSION_RATE, MIN_COMMISSION, DEFAULT_BALANCE, DEFAULT_LEVERAGE, max_def,
      keyBTC_LONG, keyBTC_SHORT, sell_ne_long, buy_ne_long, sell_ne_short, buy_ne_short,
      long_ne_short, short_ne_long]

/- ===================== C3 ===================== -/

/-- C3 counterexample: a LONG with TP 1.05 and SL 0.95 on a candle with
high 1.10 and low 0.90 breaches both thresholds; process_candle then
creates and executes TWO closing MARKET orders, not one, and the
original position is still in the book afterwards (the first synthesized
SELL order keys to BTCUSDT_SHORT, opening an opposite position that the
second one closes). -/
theorem both_triggers_two_orders_cex :
    ¬((process_candle (engBoth 1000) "BTCUSDT" 1 (11/10) (9/10) 1 0).order_history.length
        = 1) ∧
    (process_candle (engBoth 1000) "BTCUSDT" 1 (11/10) (9/10) 1 0).order_history.length
        = 2 ∧
    (process_candle (engBoth 1000) "BTCUSDT" 1 (11/10) (9/10) 1 0).order_history.map
        Order.status = [OrderStatus.FILLED, OrderStatus.FILLED] ∧
    (alookup (process_candle (engBoth 1000) "BTCUSDT" 1 (11/10) (9/10) 1 0).bm.positions
       "BTCUSDT_LONG").map Position.quantity = some 100 := by
  refine ⟨?_, ?_, ?_, ?_⟩ <;>
  norm_num [process_candle, update_position_prices, markAll, markPosition,
    check_tp_sl_improved, check_tp_sl_go, triggerRows, tpFire, slFire, runTriggers,
    processTrigger, create_order, can_place_order, execute_market_order, execute_order,
    orderKey, calculate_commission, calculate_slippage, get_slippage, get_slippage_go,
    SLIPPAGE_CONFIG_DESC, pyOrQ, refQty, ghostAfterFill, ghostShift, ghostInvalidate,
    ghostInit, alookup, aupdate, aerase, removeOrder, pendingMarket, runPendingOrders,
    engBoth, posBoth, OrderSide.val, PositionSide.val, COMMISSION_RATE, MIN_COMMISSION,
    DEFAULT_LEVERAGE, DEFAULT_BALANCE, max_def, keyBTC_LONG, keyBTC_SHORT, sell_ne_long,
    buy_ne_long, sell_ne_short, buy_ne_short, long_ne_short, short_ne_long,
    sell_ne_buy, buy_ne_sell, keyL_ne_keyS, keyS_ne_keyL, oSELL_ne_oBUY, oBUY_ne_oSELL]

/-- C3 amended: when one candle breaches both the TP and the SL of a
position, the scan emits two trigger rows and process_candle executes
two closing orders (for any free balance of at least 11 USDT covering
both creation checks): the first, keyed by its own side to the opposite
direction slot, opens an opposite position instead of closing the
original; the second closes that opposite position; the original
position survives the candle with its quantity intact. -/
theorem both_triggers_two_orders (f : ℚ) (hf : 11 ≤ f) :
    (process_candle (engBoth f) "BTCUSDT" 1 (11/10) (9/10) 1 0).order_history.length
        = 2 ∧
    (alookup (process_candle (engBoth f) "BTCUSDT" 1 (11/10) (9/10) 1 0).bm.positions
       "BTCUSDT_LONG").map Position.quantity = some 100 ∧
    alookup (process_candle (engBoth f) "BTCUSDT" 1 (11/10) (9/10) 1 0).bm.positions
       "BTCUSDT_SHORT" = none := by
  have h1 : ¬(f < 1/25) := by rw [not_lt]; linarith
  have h2 : ¬(f - 42272853/4000000 < 1/25) := by rw [not_lt]; linarith
  refine ⟨?_, ?_, ?_⟩ <;>
  norm_num [process_candle, update_position_prices, markAll, markPosition,
    check_tp_sl_improved, check_tp_sl_go, triggerRows, tpFire, slFire, runTriggers,
    processTrigger, create_order, can_place_order, execute_market_order, execute_order,
    orderKey, calculate_commission, calculate_slippage, get_slippage, get_slippage_go,
    SLIPPAGE_CONFIG_DESC, pyOrQ, refQty, ghostAfterFill, ghostShift, ghostInvalidate,
    ghostInit, alookup, aupdate, aerase, removeOrder, pendingMarket, runPendingOrders,
    engBoth, posBoth, OrderSide.val, PositionSide.val, COMMISSION_RATE, MIN_COMMISSION,
    DEFAULT_LEVERAGE, DEFAULT_BALANCE, max_def, keyBTC_LONG, keyBTC_SHORT, sell_ne_long,
    buy_ne_long, sell_ne_short, buy_ne_short, long_ne_short, short_ne_long,
    sell_ne_buy, buy_ne_sell, keyL_ne_keyS, keyS_ne_keyL, oSELL_ne_oBUY, oBUY_ne_oSELL,
    h1, h2]

/-- C3 amended witness: the double execution at the default free balance. -/
theorem both_triggers_two_orders_witness :
    (process_candle (engBoth 1000) "BTCUSDT" 1 (11/10) (9/10) 1 0).order_history.length
        = 2 ∧
    (alookup (process_candle (engBoth 1000) "BTCUSDT" 1 (11/10) (9/10) 1 0).bm.positions
       "BTCUSDT_LONG").map Position.quantity = some 100 ∧
    alookup (process_candle (engBoth 1000) "BTCUSDT" 1 (11/10) (9/10) 1 0).bm.positions
       "BTCUSDT_SHORT" = none :=
  both_triggers_two_orders 1000 (by norm_num)

/- ===================== C4 ===================== -/

/-- C4: a closing order synthesized by the TP/SL scan is executed with
the breached threshold price as the market price, so its executed price
is the slippage-adjusted trigger price 1.05 - 1.05 * 0.05 percent =
1.049475; the candle close price (universally quantified here, together
with open, low and volume) does not enter the executed price at all. -/
theorem tp_executes_at_trigger_price
    (po h l c v f : ℚ) (hh : 21/20 ≤ h) (hf : 1/25 ≤ f) :
    (process_candle (engTPOnly f) "BTCUSDT" po h l c v).order_history.map
        Order.executed_price
      = [21/20 - calculate_slippage (100 * (21/20)) (21/20)] ∧
    (21/20 - calculate_slippage (100 * (21/20)) (21/20) : ℚ) = 41979/40000 ∧
    (process_candle (engTPOnly f) "BTCUSDT" po h l c v).order_history.length = 1 := by
  have h1 : ¬(f < 1/25) := not_lt.mpr hf
  have hd : decide ((21/20 : ℚ) ≤ h) = true := decide_eq_true hh
  refine ⟨?_, ?_, ?_⟩ <;>
  norm_num [process_candle, update_position_prices, markAll, markPosition,
    check_tp_sl_improved, check_tp_sl_go, triggerRows, tpFire, slFire, runTriggers,
    processTrigger, create_order, can_place_order, execute_market_order, execute_order,
    orderKey, calculate_commission, calculate_slippage, get_slippage, get_slippage_go,
    SLIPPAGE_CONFIG_DESC, pyOrQ, refQty, ghostAfterFill, ghostShift, ghostInvalidate,
    ghostInit, alookup, aupdate, aerase, removeOrder, pendingMarket, runPendingOrders,
    engTPOnly, posTPOnly, posBoth, OrderSide.val, PositionSide.val, COMMISSION_RATE,
    MIN_COMMISSION, DEFAULT_LEVERAGE, DEFAULT_BALANCE, max_def, keyBTC_LONG, keyBTC_SHORT,
    sell_ne_long, buy_ne_long, sell_ne_short, buy_ne_short, long_ne_short, short_ne_long,
    sell_ne_buy, buy_ne_sell, keyL_ne_keyS, keyS_ne_keyL, oSELL_ne_oBUY, oBUY_ne_oSELL,
    h1, hd]

/-- C4 witness: a concrete candle whose close 1.40 differs from the
trigger 1.05 still executes the closing order at 1.049475. -/
theorem tp_executes_at_trigger_price_witness :
    (process_candle (engTPOnly 1000) "BTCUSDT" 1 (11/10) 1 (7/5) 0).order_history.map
        Order.executed_price
      = [21/20 - calculate_slippage (100 * (21/20)) (21/20)] ∧
    (21/20 - calculate_slippage (100 * (21/20)) (21/20) : ℚ) = 41979/40000 ∧
    (process_candle (engTPOnly 1000) "BTCUSDT" 1 (11/10) 1 (7/5) 0).order_history.length
      = 1 :=
  tp_executes_at_trigger_price 1 (11/10) 1 (7/5) 0 1000 (by norm_num) (by norm_num)

/- ===================== C6 ===================== -/

/-- C6: given fills of positive executed quantity, every position in the
book keeps quantity strictly positive, and the position at the key of
the executed order is removed by the fill exactly when the reduction
drives its quantity to at most 0. -/
theorem position_book_quantity_law
    (bm : BalanceManager) (ord : Order) (p q : ℚ)
    (hq : 0 < q) (hlev : ord.leverage ≠ 0)
    (hinv : ∀ kp ∈ bm.positions, 0 < (Prod.snd kp).quantity) :
    (∀ kp ∈ (execute_order bm ord p q).2.1.positions, 0 < (Prod.snd kp).quantity) ∧
    (∀ pos0, alookup bm.positions (orderKey ord) = some pos0 →
      (alookup (execute_order bm ord p q).2.1.positions (orderKey ord) = none
        ↔ pos0.quantity - q ≤ 0)) := by
  rcases hA : alookup bm.positions (orderKey ord) with _ | position
  · constructor
    · intro kp hkp
      simp only [execute_order, if_neg hlev, hA] at hkp
      rcases List.mem_append.mp hkp with hm | hm
      · exact hinv kp hm
      · simp only [List.mem_singleton] at hm
        subst hm
        exact hq
    · intro pos0 h0
      exact absurd h0 (by simp)
  · have hs := side_val_ne ord.side ord.position_side
    by_cases hq0 : position.quantity - q ≤ 0
    · constructor
      · intro kp hkp
        simp only [execute_order, if_neg hlev, hA, if_neg hs, if_pos hq0] at hkp
        exact hinv kp (mem_aerase hkp)
      · intro pos0 h0
        cases Option.some.inj h0
        simp only [execute_order, if_neg hlev, hA, if_neg hs, if_pos hq0]
        simp [alookup_aerase_self, hq0]
    · constructor
      · intro kp hkp
        simp only [execute_order, if_neg hlev, hA, if_neg hs, if_neg hq0] at hkp
        rcases mem_aupdate hkp with hm | hm
        · subst hm
          simpa using lt_of_not_le (fun hle => hq0 (by linarith))
        · exact hinv kp hm
      · intro pos0 h0
        cases Option.some.inj h0
        simp only [execute_order, if_neg hlev, hA, if_neg hs, if_neg hq0]
        rw [alookup_aupdate_self _ _ _ _ hA]
        simp [hq0]

/-- C6 witness: the concrete full close removes the position after a
reduction to zero. -/
theorem position_book_quantity_law_witness :
    (∀ kp ∈ (execute_order bmScenario2 ordCloseLong (105/100) 100).2.1.positions,
       0 < (Prod.snd kp).quantity) ∧
    (∀ pos0, alookup bmScenario2.positions (orderKey ordCloseLong) = some pos0 →
      (alookup (execute_order bmScenario2 ordCloseLong (105/100) 100).2.1.positions
         (orderKey ordCloseLong) = none
        ↔ pos0.quantity - 100 ≤ 0)) :=
  position_book_quantity_law bmScenario2 ordCloseLong (105/100) 100
    (by decide) (by decide) (by decide)

end Exch
